import Mathlib

/-!
Shallow embedding of `src/streamlit_app.py`: a Streamlit dashboard showing
trending YouTube videos.  The two API functions `get_video_categories` and
`get_popular_videos` are modelled as pure functions taking the client-handle
state (present or absent) and the upstream API as explicit parameters, and
returning the value together with the upstream requests issued and the
user-visible error messages emitted.  Python dicts are modelled as
insertion-ordered association lists with the exact insert/override semantics
of CPython dicts.
-/

namespace StreamlitApp

/-! ### Python dict model (insertion-ordered, later value wins, position kept) -/

/-- Inserting `k ↦ v` into a Python dict: if `k` is present its value is
updated in place (position preserved); otherwise `(k, v)` is appended. -/
def dictInsert (m : List (String × String)) (k v : String) : List (String × String) :=
  if m.any (fun p => decide (p.1 = k)) then
    m.map (fun p => if p.1 = k then (k, v) else p)
  else
    m ++ [(k, v)]

/-- The Python dict built by inserting the pairs of `l` left to right into an
empty dict; this is the meaning of a dict display / dict comprehension. -/
def dictOfList (l : List (String × String)) : List (String × String) :=
  List.foldl (fun m p => dictInsert m p.1 p.2) [] l

/-- Lookup in the dict model: value of the first (hence unique) entry for `k`. -/
def dictGet (m : List (String × String)) (k : String) : Option String :=
  (m.find? (fun p => decide (p.1 = k))).map Prod.snd

/-- Value of the last pair of `l` whose key is `k`, if any. -/
def lastVal (k : String) : List (String × String) → Option String
  | [] => none
  | p :: l =>
    match lastVal k l with
    | some v => some v
    | none => if p.1 = k then some p.2 else none

/-! ### Fixed country set (`COUNTRIES` in the source) -/

def COUNTRIES : List (String × String) :=
  [("대한민국", "KR"), ("미국", "US"), ("일본", "JP"), ("영국", "GB"), ("프랑스", "FR"),
   ("독일", "DE"), ("캐나다", "CA"), ("인도", "IN"), ("브라질", "BR"), ("베트남", "VN")]

/-! ### Category fetching (`get_video_categories`) -/

/-- One item's `snippet` in a `videoCategories().list` response; fields may be
missing upstream (`none` = key absent). -/
structure CatSnippet where
  title : Option String
  assignable : Option Bool
  deriving DecidableEq

/-- One item of a `videoCategories().list` response. -/
structure CatItem where
  id : Option String
  snippet : Option CatSnippet
  deriving DecidableEq

/-- The request built by `videoCategories().list(part="snippet", regionCode=...)`. -/
structure CatReq where
  part : String
  regionCode : String
  deriving DecidableEq

/-- A `videoCategories().list` response body; the `items` key may be absent. -/
structure CatResponse where
  items : Option (List CatItem)
  deriving DecidableEq

/-- One step of the dict comprehension
`{item['snippet']['title']: item['id'] for item in items if item['snippet'].get('assignable', False)}`:
the filter reads `item['snippet']` (KeyError if absent) and `assignable`
defaults to `False`; for passing items `title` and `id` are read (KeyError if
absent).  `ok none` means the item was filtered out. -/
def catEntry (item : CatItem) : Except String (Option (String × String)) :=
  match item.snippet with
  | none => Except.error "KeyError: snippet"
  | some sn =>
    if sn.assignable.getD false then
      match sn.title with
      | none => Except.error "KeyError: title"
      | some t =>
        match item.id with
        | none => Except.error "KeyError: id"
        | some i => Except.ok (some (t, i))
    else Except.ok none

/-- The whole comprehension: left-to-right, first KeyError aborts (it is caught
by the surrounding `except`), otherwise the passing `(title, id)` pairs in
upstream order. -/
def catEntries : List CatItem → Except String (List (String × String))
  | [] => Except.ok []
  | item :: rest =>
    match catEntry item with
    | Except.error e => Except.error e
    | Except.ok none => catEntries rest
    | Except.ok (some p) =>
      match catEntries rest with
      | Except.error e => Except.error e
      | Except.ok ps => Except.ok (p :: ps)

/-- Observable outcome of one call to an API function: its return value, the
upstream requests it executed, the `st.error` messages and the debug log lines
(`st.write` / `st.exception`) it emitted. -/
structure FetchOut (ρ α : Type) where
  result : α
  upstreamCalls : List ρ
  errors : List String
  logs : List String
  deriving DecidableEq

def categoriesDebugLog : String := "DEBUG: Error fetching categories from YouTube API:"

/-- `get_video_categories(region_code)` from `src/streamlit_app.py` lines 43-60.
`client` is the truthiness of `st.session_state.youtube`; `upstream` is the
YouTube API (`request.execute()`), raising (`Except.error`) or answering. -/
def get_video_categories (client : Bool)
    (upstream : CatReq → Except String CatResponse)
    (region_code : String) : FetchOut CatReq (List (String × String)) :=
  if client then
    match upstream { part := "snippet", regionCode := region_code } with
    | Except.error e =>
        ⟨[("전체", "0")], [{ part := "snippet", regionCode := region_code }], [],
         [categoriesDebugLog, e]⟩
    | Except.ok resp =>
      match resp.items with
      | none =>
          ⟨[("전체", "0")], [{ part := "snippet", regionCode := region_code }], [],
           [categoriesDebugLog, "KeyError: items"]⟩
      | some items =>
        match catEntries items with
        | Except.error e =>
            ⟨[("전체", "0")], [{ part := "snippet", regionCode := region_code }], [],
             [categoriesDebugLog, e]⟩
        | Except.ok pairs =>
            ⟨dictOfList (("전체", "0") :: pairs),
             [{ part := "snippet", regionCode := region_code }], [], []⟩
  else ⟨[], [], [], []⟩

/-! ### Trending video fetching (`get_popular_videos`) -/

/-- A thumbnail entry (`{"url": ...}`); the key may be absent. -/
structure Thumb where
  url : Option String
  deriving DecidableEq

/-- The `thumbnails` object; the `high` key may be absent. -/
structure Thumbnails where
  high : Option Thumb
  deriving DecidableEq

/-- A video's `snippet`; any key may be absent upstream. -/
structure VSnippet where
  title : Option String
  channelTitle : Option String
  thumbnails : Option Thumbnails
  deriving DecidableEq

/-- A video's `statistics`; `viewCount` (already parsed to a number) may be
absent, in which case the renderer defaults it to 0. -/
structure VStats where
  viewCount : Option Nat
  deriving DecidableEq

/-- One video record of a `videos().list` response. -/
structure VideoItem where
  id : Option String
  snippet : Option VSnippet
  statistics : Option VStats
  deriving DecidableEq

/-- The `request_params` dict built in `get_popular_videos`;
`videoCategoryId` is `none` when the key is not put into the dict. -/
structure ReqParams where
  part : String
  chart : String
  regionCode : String
  maxResults : Nat
  videoCategoryId : Option String
  deriving DecidableEq

/-- Lines 69-76: the category filter is added only when `video_category_id`
is truthy (non-empty) and different from the sentinel `"0"`. -/
def request_params (region_code : String) (video_category_id : String)
    (max_results : Nat) : ReqParams :=
  { part := "snippet,statistics"
    chart := "mostPopular"
    regionCode := region_code
    maxResults := max_results
    videoCategoryId :=
      if video_category_id ≠ "" ∧ video_category_id ≠ "0" then some video_category_id
      else none }

/-- The exceptions `request.execute()` can raise: `googleapiclient.errors.HttpError`
or anything else. -/
inductive UpError where
  | httpError (msg : String)
  | otherError (msg : String)
  deriving DecidableEq

/-- A `videos().list` response body; `response.get("items", [])` defaults the
absent key to the empty list. -/
structure PopResponse where
  items : Option (List VideoItem)
  deriving DecidableEq

def absentClientError : String :=
  "🚨 환경 변수 YOUTUBE_API_KEY를 설정하지 않았거나 API 클라이언트 생성에 실패했습니다."

def httpErrorMessage (e : String) : String := "😭 API 호출 중 오류가 발생했습니다: " ++ e

def quotaHintMessage : String := "API 키가 유효하지 않거나 할당량이 초과되었을 수 있습니다."

def unknownErrorMessage (e : String) : String := "😭 알 수 없는 오류가 발생했습니다: " ++ e

/-- `get_popular_videos(region_code, video_category_id="0", max_results=30)`
from `src/streamlit_app.py` lines 63-87. -/
def get_popular_videos (client : Bool)
    (upstream : ReqParams → Except UpError PopResponse)
    (region_code : String) (video_category_id : String) (max_results : Nat) :
    FetchOut ReqParams (Option (List VideoItem)) :=
  if client then
    match upstream (request_params region_code video_category_id max_results) with
    | Except.ok resp =>
        ⟨some (resp.items.getD []),
         [request_params region_code video_category_id max_results], [], []⟩
    | Except.error (UpError.httpError e) =>
        ⟨none, [request_params region_code video_category_id max_results],
         [httpErrorMessage e, quotaHintMessage], []⟩
    | Except.error (UpError.otherError e) =>
        ⟨none, [request_params region_code video_category_id max_results],
         [unknownErrorMessage e], []⟩
  else ⟨none, [], [absentClientError], []⟩

/-! ### Render layer (the video render loop, lines 121-137) -/

/-- The Streamlit widgets a card slot can emit, in emission order. -/
inductive UiWidget where
  | image (url : String)
  | subheader (text : String)
  | write (text : String)
  | warning (text : String)
  deriving DecidableEq

def missingDataWarning (key : String) : String :=
  "⚠️ 일부 동영상 데이터가 누락되었습니다: " ++ key

def watchUrl (video_id : String) : String := "https://www.youtube.com/watch?v=" ++ video_id

/-- Python's thousands-separator formatting of a natural number, `f"{n:,}"`:
digits grouped by three from the right, groups joined by commas.
`commasAux` walks the reversed digit list, inserting a comma before every
digit whose position from the right is a positive multiple of three. -/
def commasAux : List Char → Nat → List Char
  | [], _ => []
  | c :: cs, i =>
    if i ≠ 0 ∧ i % 3 = 0 then ',' :: c :: commasAux cs (i + 1)
    else c :: commasAux cs (i + 1)

def formatThousands (n : Nat) : String :=
  String.mk (commasAux (Nat.toDigits 10 n).reverse 0).reverse

/-- One iteration of the render loop, lines 123-137: the widgets emitted into
one grid slot.  Field lookups happen in source order; the first missing key
raises `KeyError`, caught by the `except KeyError` arm which emits a warning
into the same slot (after whatever widgets were already emitted).
`viewCount` is read with `.get('viewCount', 0)` and so never raises. -/
def renderSlot (video : VideoItem) : List UiWidget :=
  match video.snippet with
  | none => [UiWidget.warning (missingDataWarning "snippet")]
  | some sn =>
  match video.statistics with
  | none => [UiWidget.warning (missingDataWarning "statistics")]
  | some stats =>
  match video.id with
  | none => [UiWidget.warning (missingDataWarning "id")]
  | some video_id =>
  match sn.thumbnails with
  | none => [UiWidget.warning (missingDataWarning "thumbnails")]
  | some th =>
  match th.high with
  | none => [UiWidget.warning (missingDataWarning "high")]
  | some hi =>
  match hi.url with
  | none => [UiWidget.warning (missingDataWarning "url")]
  | some u =>
  match sn.title with
  | none => [UiWidget.image u, UiWidget.warning (missingDataWarning "title")]
  | some t =>
  match sn.channelTitle with
  | none =>
      [UiWidget.image u,
       UiWidget.subheader ("[" ++ t ++ "](" ++ watchUrl video_id ++ ")"),
       UiWidget.warning (missingDataWarning "channelTitle")]
  | some ch =>
      [UiWidget.image u,
       UiWidget.subheader ("[" ++ t ++ "](" ++ watchUrl video_id ++ ")"),
       UiWidget.write ("**채널:** " ++ ch),
       UiWidget.write ("**조회수:** " ++ formatThousands (stats.viewCount.getD 0) ++ "회")]

/-- Whether a slot's widget list contains a warning. -/
def slotHasWarning (ws : List UiWidget) : Bool :=
  ws.any fun w =>
    match w with
    | UiWidget.warning _ => true
    | _ => false

/-- The whole loop `for i, video in enumerate(video_items)`: record `i` goes
into column `i % 3` of the 3-column grid (`with video_cols[i % 3]`). -/
def renderVideos (videos : List VideoItem) : List (Nat × List UiWidget) :=
  videos.enum.map fun p => (p.1 % 3, renderSlot p.2)

/-! ### Cache model -/

/-- Outcome of one call through the cache: the value returned, the cache
state afterwards, and whether the underlying computation (the upstream
query) was executed. -/
structure CacheResult (κ α : Type) where
  value : α
  cache : List (κ × α × Nat)
  calledUpstream : Bool
  deriving DecidableEq

/-- The `ttl=3600` argument of `st.cache_data` on both API functions. -/
def cacheTTL : Nat := 3600

/-- Modelled from the spec: the body of `st.cache_data(ttl=3600)` is Streamlit
framework code, not part of this repository.  Per the spec's cache-entry
design, an entry keyed by the parameter tuple stores the value and its write
time, and a hit is served only while less than `cacheTTL` seconds old. -/
def lookupFresh {κ α : Type} [DecidableEq κ] (cache : List (κ × α × Nat))
    (now : Nat) (key : κ) : Option α :=
  match cache.find? (fun e => decide (e.1 = key)) with
  | some e => if now < e.2.2 + cacheTTL then some e.2.1 else none
  | none => none

/-- Modelled from the spec: one memoized call.  A fresh entry is returned
without running `compute`; otherwise `compute` runs (the upstream query is
issued) and the entry for `key` is replaced with the new value and time. -/
def cachedCall {κ α : Type} [DecidableEq κ] (cache : List (κ × α × Nat))
    (now : Nat) (key : κ) (compute : Unit → α) : CacheResult κ α :=
  match lookupFresh cache now key with
  | some v => ⟨v, cache, false⟩
  | none =>
      ⟨compute (), (key, compute (), now) :: cache.filter (fun e => !decide (e.1 = key)), true⟩

/-- Convenience constructor: a video record with every renderable field present
and a chosen `viewCount` state. -/
def mkFullVideo (video_id u t ch : String) (vc : Option Nat) : VideoItem :=
  ⟨some video_id, some ⟨some t, some ch, some ⟨some ⟨some u⟩⟩⟩, some ⟨vc⟩⟩

/-! ### Lemmas about the Python dict model -/

theorem dictInsert_ne_nil (m : List (String × String)) (k v : String) :
    dictInsert m k v ≠ [] := by
  unfold dictInsert
  split
  · rename_i h
    cases m with
    | nil => simp at h
    | cons p t => simp
  · simp

theorem head?_fst_dictInsert (m : List (String × String)) (k v : String) (h : m ≠ []) :
    (dictInsert m k v).head?.map Prod.fst = m.head?.map Prod.fst := by
  unfold dictInsert
  cases m with
  | nil => exact absurd rfl h
  | cons p t =>
    split
    · simp only [List.map_cons, List.head?_cons, Option.map_some']
      split
      · rename_i hpk; simp [hpk]
      · rfl
    · simp

theorem foldl_dictInsert_head (l : List (String × String)) :
    ∀ m : List (String × String), m ≠ [] →
      List.foldl (fun m p => dictInsert m p.1 p.2) m l ≠ [] ∧
      (List.foldl (fun m p => dictInsert m p.1 p.2) m l).head?.map Prod.fst =
        m.head?.map Prod.fst := by
  induction l with
  | nil => exact fun m hm => ⟨hm, rfl⟩
  | cons q t ih =>
    intro m hm
    simp only [List.foldl_cons]
    obtain ⟨h2, h3⟩ := ih (dictInsert m q.1 q.2) (dictInsert_ne_nil m q.1 q.2)
    exact ⟨h2, h3.trans (head?_fst_dictInsert m q.1 q.2 hm)⟩

theorem dictOfList_cons_head (p : String × String) (l : List (String × String)) :
    dictOfList (p :: l) ≠ [] ∧
    (dictOfList (p :: l)).head?.map Prod.fst = some p.1 := by
  unfold dictOfList
  simp only [List.foldl_cons]
  have hbase : dictInsert [] p.1 p.2 = [(p.1, p.2)] := rfl
  rw [hbase]
  obtain ⟨h1, h2⟩ := foldl_dictInsert_head l [(p.1, p.2)] (by simp)
  exact ⟨h1, by simpa using h2⟩

theorem find?_dictUpdate (m : List (String × String)) (k v : String)
    (h : m.any (fun p => decide (p.1 = k)) = true) :
    (m.map (fun p => if p.1 = k then (k, v) else p)).find? (fun p => decide (p.1 = k)) =
      some (k, v) := by
  induction m with
  | nil => simp at h
  | cons p t ih =>
    simp only [List.map_cons]
    by_cases hpk : p.1 = k
    · rw [if_pos hpk]
      exact List.find?_cons_of_pos _ (by simp)
    · rw [if_neg hpk]
      rw [List.find?_cons_of_neg _ (by simp [hpk])]
      apply ih
      simpa [hpk] using h

theorem find?_dictUpdate_ne (m : List (String × String)) (k v k' : String) (hk : k' ≠ k) :
    (m.map (fun p => if p.1 = k then (k, v) else p)).find? (fun p => decide (p.1 = k')) =
      m.find? (fun p => decide (p.1 = k')) := by
  induction m with
  | nil => rfl
  | cons p t ih =>
    simp only [List.map_cons]
    by_cases hpk : p.1 = k
    · rw [if_pos hpk]
      rw [List.find?_cons_of_neg _ (by simpa using Ne.symm hk),
          List.find?_cons_of_neg _ (by simpa [hpk] using Ne.symm hk)]
      exact ih
    · rw [if_neg hpk]
      by_cases hpk' : p.1 = k'
      · rw [List.find?_cons_of_pos _ (by simp [hpk']), List.find?_cons_of_pos _ (by simp [hpk'])]
      · rw [List.find?_cons_of_neg _ (by simp [hpk']), List.find?_cons_of_neg _ (by simp [hpk'])]
        exact ih

theorem dictGet_dictInsert (m : List (String × String)) (k v k' : String) :
    dictGet (dictInsert m k v) k' = if k' = k then some v else dictGet m k' := by
  by_cases hk : k' = k
  · subst hk
    rw [if_pos rfl]
    unfold dictInsert dictGet
    split
    · rename_i h
      rw [find?_dictUpdate m k' v h]
      rfl
    · rename_i h
      have h' : ∀ x ∈ m, ¬((fun p => decide (p.1 = k')) x = true) :=
        List.any_eq_false.mp (Bool.of_not_eq_true h)
      rw [List.find?_append, List.find?_eq_none.mpr h', Option.none_or,
          List.find?_cons_of_pos _ (by simp)]
      rfl
  · rw [if_neg hk]
    unfold dictInsert dictGet
    split
    · rw [find?_dictUpdate_ne m k v k' hk]
    · rw [List.find?_append]
      have hsing : ([(k, v)] : List (String × String)).find? (fun p => decide (p.1 = k')) =
          none := by
        rw [List.find?_eq_none]
        intro x hx
        simp at hx
        simpa [hx] using Ne.symm hk
      rw [hsing, Option.or_none]

theorem dictGet_foldl (l : List (String × String)) :
    ∀ (m : List (String × String)) (k : String),
      dictGet (List.foldl (fun m p => dictInsert m p.1 p.2) m l) k =
        match lastVal k l with
        | some v => some v
        | none => dictGet m k := by
  induction l with
  | nil => intro m k; rfl
  | cons p t ih =>
    intro m k
    simp only [List.foldl_cons]
    rw [ih (dictInsert m p.1 p.2) k]
    cases hlv : lastVal k t with
    | some v => simp [lastVal, hlv]
    | none =>
      simp only [lastVal, hlv]
      rw [dictGet_dictInsert]
      by_cases hk : k = p.1
      · simp [hk]
      · rw [if_neg hk, if_neg (Ne.symm hk)]

theorem dictGet_dictOfList (l : List (String × String)) (k : String) :
    dictGet (dictOfList l) k = lastVal k l := by
  unfold dictOfList
  rw [dictGet_foldl]
  cases lastVal k l <;> rfl

theorem keys_dictUpdate (m : List (String × String)) (k v : String) :
    (m.map (fun p => if p.1 = k then (k, v) else p)).map Prod.fst = m.map Prod.fst := by
  rw [List.map_map]
  apply List.map_congr_left
  intro p _
  by_cases hpk : p.1 = k
  · simp [hpk]
  · simp [hpk]

theorem nodup_keys_dictInsert (m : List (String × String)) (k v : String)
    (h : (m.map Prod.fst).Nodup) : ((dictInsert m k v).map Prod.fst).Nodup := by
  unfold dictInsert
  split
  · rw [keys_dictUpdate]
    exact h
  · rename_i hany
    rw [List.map_append]
    have h' : m.any (fun p => decide (p.1 = k)) = false := Bool.of_not_eq_true hany
    have hk : k ∉ m.map Prod.fst := by
      intro hmem
      obtain ⟨p, hp, hpk⟩ := List.mem_map.mp hmem
      simpa [hpk] using List.any_eq_false.mp h' p hp
    refine List.nodup_append.mpr ⟨h, List.nodup_singleton _, ?_⟩
    intro a ha hmem
    simp at hmem
    subst hmem
    exact hk ha

theorem nodup_keys_dictOfList (l : List (String × String)) :
    ((dictOfList l).map Prod.fst).Nodup := by
  unfold dictOfList
  have aux : ∀ (t : List (String × String)) (m : List (String × String)),
      (m.map Prod.fst).Nodup →
      ((List.foldl (fun m p => dictInsert m p.1 p.2) m t).map Prod.fst).Nodup := by
    intro t
    induction t with
    | nil => exact fun m h => h
    | cons p t ih =>
      intro m h
      exact ih _ (nodup_keys_dictInsert m p.1 p.2 h)
  exact aux l [] (by simp)

theorem dictInsert_absent (m : List (String × String)) (k v : String)
    (h : k ∉ m.map Prod.fst) : dictInsert m k v = m ++ [(k, v)] := by
  unfold dictInsert
  rw [if_neg]
  intro hany
  obtain ⟨p, hp, hpk⟩ := List.any_eq_true.mp hany
  simp only [decide_eq_true_eq] at hpk
  exact h (List.mem_map.mpr ⟨p, hp, hpk⟩)

theorem foldl_dictInsert_of_nodup (l : List (String × String)) :
    ∀ m : List (String × String), ((m ++ l).map Prod.fst).Nodup →
      List.foldl (fun m p => dictInsert m p.1 p.2) m l = m ++ l := by
  induction l with
  | nil => intro m _; simp
  | cons p t ih =>
    intro m h
    simp only [List.foldl_cons]
    have hk : p.1 ∉ m.map Prod.fst := by
      rw [List.map_append] at h
      intro hmem
      exact (List.nodup_append.mp h).2.2 hmem (by simp)
    rw [dictInsert_absent m p.1 p.2 hk]
    have hpair : m ++ [(p.1, p.2)] = m ++ [p] := by simp
    rw [hpair, ih (m ++ [p]) (by simpa [List.append_assoc] using h)]
    simp

theorem dictOfList_eq_self (l : List (String × String)) (h : (l.map Prod.fst).Nodup) :
    dictOfList l = l :=
  foldl_dictInsert_of_nodup l [] (by simpa using h)

/-! ### Helper lemmas for the render loop -/

theorem countP_eq_one_of_unique {α : Type} (p : α → Bool) :
    ∀ (l : List α) (k : Nat) (hk : k < l.length), p (l.get ⟨k, hk⟩) = true →
      (∀ j (hj : j < l.length), j ≠ k → p (l.get ⟨j, hj⟩) = false) →
      l.countP p = 1 ∧ l.countP (fun a => !p a) = l.length - 1 := by
  intro l
  induction l with
  | nil => intro k hk; exact absurd hk (by simp)
  | cons a t ih =>
    intro k hk hpk hothers
    cases k with
    | zero =>
      have hpa : p a = true := hpk
      have hrest : ∀ x ∈ t, ¬(p x = true) := by
        intro x hx
        obtain ⟨⟨j, hj⟩, rfl⟩ := List.mem_iff_get.mp hx
        have := hothers (j + 1) (by simpa using Nat.succ_lt_succ hj) (by simp)
        simpa [List.get_cons_succ] using this
      constructor
      · rw [List.countP_cons_of_pos _ _ (by simpa using hpa), List.countP_eq_zero.mpr hrest]
      · rw [List.countP_cons_of_neg _ _ (by simp [hpa]),
            List.countP_eq_length.mpr (fun x hx => by simpa using hrest x hx)]
        simp
    | succ j =>
      have hpa : p a = false := hothers 0 (by simp) (by simp)
      have hj : j < t.length := by simpa using hk
      have hpj : p (t.get ⟨j, hj⟩) = true := by
        simpa [List.get_cons_succ] using hpk
      have hoth : ∀ i (hi : i < t.length), i ≠ j → p (t.get ⟨i, hi⟩) = false := by
        intro i hi hij
        have := hothers (i + 1) (by simpa using Nat.succ_lt_succ hi) (by simpa using hij)
        simpa [List.get_cons_succ] using this
      obtain ⟨h1, h2⟩ := ih j hj hpj hoth
      constructor
      · rw [List.countP_cons_of_neg _ _ (by simp [hpa]), h1]
      · rw [List.countP_cons_of_pos _ _ (by simp [hpa]), h2]
        have hlen : 1 ≤ t.length := Nat.lt_of_lt_of_le (Nat.zero_lt_succ j) hj
        simp only [List.length_cons]
        omega

theorem countP_enumFrom {α : Type} (q : α → Bool) :
    ∀ (l : List α) (n : Nat),
      (l.enumFrom n).countP (fun p => q p.2) = l.countP q := by
  intro l
  induction l with
  | nil => intro n; rfl
  | cons a t ih =>
    intro n
    rw [List.enumFrom_cons, List.countP_cons, List.countP_cons, ih (n + 1)]

theorem renderVideos_length (videos : List VideoItem) :
    (renderVideos videos).length = videos.length := by
  simp [renderVideos, List.enum]

theorem renderVideos_get (videos : List VideoItem) (j : Nat)
    (hj : j < videos.length) (hj2 : j < (renderVideos videos).length) :
    (renderVideos videos).get ⟨j, hj2⟩ = (j % 3, renderSlot (videos.get ⟨j, hj⟩)) := by
  simp only [renderVideos, List.get_eq_getElem, List.getElem_map, List.getElem_enum]

theorem renderVideos_countP (videos : List VideoItem) :
    (renderVideos videos).countP (fun s => slotHasWarning s.2) =
      videos.countP (fun v => slotHasWarning (renderSlot v)) := by
  unfold renderVideos
  rw [List.countP_map]
  exact countP_enumFrom (fun v => slotHasWarning (renderSlot v)) videos 0

theorem renderVideos_countP_not (videos : List VideoItem) :
    (renderVideos videos).countP (fun s => !slotHasWarning s.2) =
      videos.countP (fun v => !slotHasWarning (renderSlot v)) := by
  unfold renderVideos
  rw [List.countP_map]
  exact countP_enumFrom (fun v => !slotHasWarning (renderSlot v)) videos 0

/-! ### Description lemmas for `get_video_categories` -/

theorem get_video_categories_error (upstream : CatReq → Except String CatResponse)
    (region_code e : String)
    (h : upstream { part := "snippet", regionCode := region_code } = Except.error e) :
    get_video_categories true upstream region_code =
      ⟨[("전체", "0")], [{ part := "snippet", regionCode := region_code }], [],
       [categoriesDebugLog, e]⟩ := by
  simp [get_video_categories, h]

theorem get_video_categories_no_items (upstream : CatReq → Except String CatResponse)
    (region_code : String)
    (h : upstream { part := "snippet", regionCode := region_code } =
      Except.ok { items := none }) :
    get_video_categories true upstream region_code =
      ⟨[("전체", "0")], [{ part := "snippet", regionCode := region_code }], [],
       [categoriesDebugLog, "KeyError: items"]⟩ := by
  simp [get_video_categories, h]

theorem get_video_categories_bad_item (upstream : CatReq → Except String CatResponse)
    (region_code e : String) (items : List CatItem)
    (h : upstream { part := "snippet", regionCode := region_code } =
      Except.ok { items := some items })
    (hc : catEntries items = Except.error e) :
    get_video_categories true upstream region_code =
      ⟨[("전체", "0")], [{ part := "snippet", regionCode := region_code }], [],
       [categoriesDebugLog, e]⟩ := by
  simp [get_video_categories, h, hc]

theorem get_video_categories_ok (upstream : CatReq → Except String CatResponse)
    (region_code : String) (items : List CatItem) (pairs : List (String × String))
    (h : upstream { part := "snippet", regionCode := region_code } =
      Except.ok { items := some items })
    (hc : catEntries items = Except.ok pairs) :
    get_video_categories true upstream region_code =
      ⟨dictOfList (("전체", "0") :: pairs),
       [{ part := "snippet", regionCode := region_code }], [], []⟩ := by
  simp [get_video_categories, h, hc]

/-- The head of the dict `{p.1: p.2, **rest}` keeps `p`'s key in first position
while its value is the value of the last pair sharing that key. -/
theorem dictOfList_cons_head_eq (p : String × String) (l : List (String × String)) (w : String)
    (hw : lastVal p.1 (p :: l) = some w) :
    (dictOfList (p :: l)).head? = some (p.1, w) := by
  obtain ⟨hne, hhead⟩ := dictOfList_cons_head p l
  cases hdl : dictOfList (p :: l) with
  | nil => exact absurd hdl hne
  | cons q rest =>
    obtain ⟨q1, q2⟩ := q
    rw [hdl] at hhead
    have hq1 : q1 = p.1 := by simpa using hhead
    have hget := dictGet_dictOfList (p :: l) p.1
    rw [hdl, hw] at hget
    have hfind : dictGet ((q1, q2) :: rest) p.1 = some q2 := by
      unfold dictGet
      rw [List.find?_cons_of_pos _ (by simp [hq1])]
      rfl
    rw [hfind] at hget
    have hq2 : q2 = w := by simpa using hget
    rw [hq1, hq2]
    rfl

/-! ### Helper lemmas for the cache model -/

theorem cachedCall_miss_cache {κ α : Type} [DecidableEq κ] (cache : List (κ × α × Nat))
    (t1 : Nat) (key : κ) (f : Unit → α)
    (hm : (cachedCall cache t1 key f).calledUpstream = true) :
    cachedCall cache t1 key f =
      ⟨f (), (key, f (), t1) :: cache.filter (fun e => !decide (e.1 = key)), true⟩ := by
  unfold cachedCall at hm ⊢
  cases hl : lookupFresh cache t1 key with
  | some v =>
    rw [hl] at hm
    simp at hm
  | none => rfl

theorem cachedCall_hit_within {κ α : Type} [DecidableEq κ] (cache : List (κ × α × Nat))
    (t1 t2 : Nat) (key : κ) (f g : Unit → α)
    (hm : (cachedCall cache t1 key f).calledUpstream = true)
    (h2 : t2 < t1 + cacheTTL) :
    cachedCall (cachedCall cache t1 key f).cache t2 key g =
      ⟨(cachedCall cache t1 key f).value, (cachedCall cache t1 key f).cache, false⟩ := by
  rw [cachedCall_miss_cache cache t1 key f hm]
  dsimp only
  unfold cachedCall
  have hfresh : lookupFresh
      ((key, f (), t1) :: cache.filter (fun e => !decide (e.1 = key))) t2 key =
      some (f ()) := by
    unfold lookupFresh
    rw [List.find?_cons_of_pos _ (by simp)]
    dsimp only
    rw [if_pos h2]
  rw [hfresh]

theorem cachedCall_expired {κ α : Type} [DecidableEq κ] (cache : List (κ × α × Nat))
    (t1 t3 : Nat) (key : κ) (f g : Unit → α)
    (hm : (cachedCall cache t1 key f).calledUpstream = true)
    (h3 : t1 + cacheTTL ≤ t3) :
    (cachedCall (cachedCall cache t1 key f).cache t3 key g).calledUpstream = true ∧
    (cachedCall (cachedCall cache t1 key f).cache t3 key g).value = g () := by
  rw [cachedCall_miss_cache cache t1 key f hm]
  dsimp only
  unfold cachedCall
  have hstale : lookupFresh
      ((key, f (), t1) :: cache.filter (fun e => !decide (e.1 = key))) t3 key = none := by
    unfold lookupFresh
    rw [List.find?_cons_of_pos _ (by simp)]
    dsimp only
    rw [if_neg (by omega)]
  rw [hstale]
  exact ⟨rfl, rfl⟩

/-! ### Claims -/

/-- Claim C8: with an absent client handle, `get_video_categories` returns the
empty mapping, issues no upstream query and emits no error — a valid
"no categories available" result, not an error state. -/
theorem claim_C8 (upstream : CatReq → Except String CatResponse) (region_code : String) :
    get_video_categories false upstream region_code =
      { result := [], upstreamCalls := [], errors := [], logs := [] } := rfl

/-- Claim C4: with an absent client handle, `get_popular_videos` returns
`none`, issues no upstream request, surfaces the configuration error to the
user, and this `none` is distinct from a successful empty list. -/
theorem claim_C4 (upstream : ReqParams → Except UpError PopResponse)
    (region_code video_category_id : String) (max_results : Nat) :
    (get_popular_videos false upstream region_code video_category_id max_results).result =
      none ∧
    (get_popular_videos false upstream region_code video_category_id
      max_results).upstreamCalls = [] ∧
    (get_popular_videos false upstream region_code video_category_id max_results).errors =
      [absentClientError] ∧
    (get_popular_videos false upstream region_code video_category_id max_results).result ≠
      some [] :=
  ⟨rfl, rfl, rfl, by simp [get_popular_videos]⟩

/-- Claim C6: with a present client handle, an `HttpError` from the upstream
query makes `get_popular_videos` emit the specific invalid-key/quota message
pair and return `none`; any other exception makes it emit the generic message
and return `none`; neither propagates (the function still yields a value). -/
theorem claim_C6 (upstream : ReqParams → Except UpError PopResponse)
    (region_code video_category_id : String) (max_results : Nat) (e : String) :
    (upstream (request_params region_code video_category_id max_results) =
        Except.error (UpError.httpError e) →
      (get_popular_videos true upstream region_code video_category_id max_results).result =
        none ∧
      (get_popular_videos true upstream region_code video_category_id max_results).errors =
        [httpErrorMessage e, quotaHintMessage]) ∧
    (upstream (request_params region_code video_category_id max_results) =
        Except.error (UpError.otherError e) →
      (get_popular_videos true upstream region_code video_category_id max_results).result =
        none ∧
      (get_popular_videos true upstream region_code video_category_id max_results).errors =
        [unknownErrorMessage e]) := by
  constructor
  · intro h
    constructor <;> simp [get_popular_videos, h]
  · intro h
    constructor <;> simp [get_popular_videos, h]

theorem claim_C6_witness :
    (get_popular_videos true (fun _ => Except.error (UpError.httpError "quotaExceeded"))
      "KR" "0" 30).result = none ∧
    (get_popular_videos true (fun _ => Except.error (UpError.httpError "quotaExceeded"))
      "KR" "0" 30).errors = [httpErrorMessage "quotaExceeded", quotaHintMessage] :=
  (claim_C6 (fun _ => Except.error (UpError.httpError "quotaExceeded"))
    "KR" "0" 30 "quotaExceeded").1 rfl

/-- Claim C3 (counterexample): the empty-string category id is different from
the sentinel `"0"`, yet the upstream query built for it carries no
`videoCategoryId` filter, because the source guards with Python truthiness
(`if video_category_id and video_category_id != "0"`). -/
theorem claim_C3_counterexample :
    ("" : String) ≠ "0" ∧
    (get_popular_videos true (fun _ => Except.ok { items := some [] })
        "KR" "" 30).upstreamCalls.map ReqParams.videoCategoryId = [none] := by
  constructor
  · decide
  · rfl

/-- Claim C3 (amended): `get_popular_videos` with a present client always
executes exactly the built request; the request omits `videoCategoryId` when
the category id is `"0"` or empty (falsy), and carries exactly the given id
for every other value. -/
theorem claim_C3 (upstream : ReqParams → Except UpError PopResponse)
    (region_code video_category_id : String) (max_results : Nat) :
    (get_popular_videos true upstream region_code video_category_id
      max_results).upstreamCalls =
      [request_params region_code video_category_id max_results] ∧
    (video_category_id ≠ "" → video_category_id ≠ "0" →
      (request_params region_code video_category_id max_results).videoCategoryId =
        some video_category_id) ∧
    (video_category_id = "" ∨ video_category_id = "0" →
      (request_params region_code video_category_id max_results).videoCategoryId = none) := by
  refine ⟨?_, ?_, ?_⟩
  · cases h : upstream (request_params region_code video_category_id max_results) with
    | ok resp => simp [get_popular_videos, h]
    | error err => cases err <;> simp [get_popular_videos, h]
  · intro h1 h2
    simp [request_params, h1, h2]
  · intro h
    rcases h with h | h <;> simp [request_params, h]

theorem claim_C3_witness :
    (request_params "KR" "27" 30).videoCategoryId = some "27" :=
  (claim_C3 (fun _ => Except.ok { items := some [] }) "KR" "27" 30).2.1
    (by decide) (by decide)

/-- Claim C1 (counterexample): the claim quantifies over the Absent
client-handle state as well, but with an absent client `get_video_categories`
returns the empty mapping, which contains no `("전체", "0")` entry at all. -/
theorem claim_C1_counterexample :
    (get_video_categories false (fun _ => Except.error "boom") "KR").result.head? ≠
      some ("전체", "0") ∧
    ("전체", "0") ∉ (get_video_categories false (fun _ => Except.error "boom") "KR").result := by
  constructor
  · simp [get_video_categories]
  · simp [get_video_categories]

/-- Claim C1 (amended): for every region code in the fixed country set, when
the client handle is present, the mapping returned by `get_video_categories`
is nonempty and its first key is `"전체"` under every upstream outcome
(success or failure); the first key's value is `"0"` unless the upstream
response successfully yields an assignable category titled `"전체"`, in which
case the last such category's identifier takes its place. -/
theorem claim_C1 (upstream : CatReq → Except String CatResponse) (region_code : String)
    (_hr : region_code ∈ COUNTRIES.map Prod.snd) :
    (get_video_categories true upstream region_code).result ≠ [] ∧
    (get_video_categories true upstream region_code).result.head?.map Prod.fst =
      some "전체" ∧
    ((get_video_categories true upstream region_code).result.head?.map Prod.snd =
        some "0" ∨
      ∃ items pairs w,
        upstream { part := "snippet", regionCode := region_code } =
          Except.ok { items := some items } ∧
        catEntries items = Except.ok pairs ∧ lastVal "전체" pairs = some w ∧
        (get_video_categories true upstream region_code).result.head? =
          some ("전체", w)) := by
  cases h : upstream { part := "snippet", regionCode := region_code } with
  | error e =>
    rw [get_video_categories_error upstream region_code e h]
    exact ⟨by simp, by simp, Or.inl (by simp)⟩
  | ok resp =>
    obtain ⟨itemsOpt⟩ := resp
    cases itemsOpt with
    | none =>
      rw [get_video_categories_no_items upstream region_code h]
      exact ⟨by simp, by simp, Or.inl (by simp)⟩
    | some items =>
      cases hc : catEntries items with
      | error e =>
        rw [get_video_categories_bad_item upstream region_code e items h hc]
        exact ⟨by simp, by simp, Or.inl (by simp)⟩
      | ok pairs =>
        rw [get_video_categories_ok upstream region_code items pairs h hc]
        obtain ⟨hne, hhead⟩ := dictOfList_cons_head ("전체", "0") pairs
        refine ⟨hne, hhead, ?_⟩
        cases hlv : lastVal "전체" pairs with
        | none =>
          left
          have hw : lastVal "전체" (("전체", "0") :: pairs) = some "0" := by
            simp [lastVal, hlv]
          have := dictOfList_cons_head_eq ("전체", "0") pairs "0" hw
          simp only [this]
          rfl
        | some w =>
          right
          refine ⟨items, pairs, w, rfl, hc, hlv, ?_⟩
          have hw : lastVal "전체" (("전체", "0") :: pairs) = some w := by
            simp [lastVal, hlv]
          exact dictOfList_cons_head_eq ("전체", "0") pairs w hw

theorem claim_C1_witness :
    (get_video_categories true (fun _ => Except.error "boom") "KR").result ≠ [] ∧
    (get_video_categories true (fun _ => Except.error "boom") "KR").result.head?.map
      Prod.fst = some "전체" :=
  ⟨(claim_C1 (fun _ => Except.error "boom") "KR" (by decide)).1,
   (claim_C1 (fun _ => Except.error "boom") "KR" (by decide)).2.1⟩

/-- Claim C7 (counterexample): two assignable upstream categories sharing the
title "Music" are collapsed by the dict comprehension into one entry, so the
entries after the synthetic first one are not exactly the assignable items in
upstream order. -/
theorem claim_C7_counterexample :
    ((get_video_categories true
        (fun _ => Except.ok ⟨some
          [⟨some "1", some ⟨some "Music", some true⟩⟩,
           ⟨some "2", some ⟨some "Music", some true⟩⟩]⟩) "KR").result).drop 1 ≠
      [("Music", "1"), ("Music", "2")] := by decide

/-- Claim C7 (amended): for a present client and a successful, well-formed
upstream response whose assignable titles are pairwise distinct and distinct
from "전체", the returned mapping is exactly the synthetic `("전체", "0")`
entry followed by the assignable items (title ↦ id), non-assignable items
excluded, in upstream order. -/
theorem claim_C7 (upstream : CatReq → Except String CatResponse) (region_code : String)
    (items : List CatItem) (pairs : List (String × String))
    (h : upstream { part := "snippet", regionCode := region_code } =
      Except.ok { items := some items })
    (hc : catEntries items = Except.ok pairs)
    (hnd : (pairs.map Prod.fst).Nodup)
    (hall : "전체" ∉ pairs.map Prod.fst) :
    (get_video_categories true upstream region_code).result = ("전체", "0") :: pairs := by
  rw [get_video_categories_ok upstream region_code items pairs h hc]
  dsimp only
  apply dictOfList_eq_self
  simp only [List.map_cons]
  exact List.nodup_cons.mpr ⟨by simpa using hall, hnd⟩

theorem claim_C7_witness :
    (get_video_categories true
        (fun _ => Except.ok ⟨some
          [⟨some "10", some ⟨some "Music", some true⟩⟩,
           ⟨some "23", some ⟨some "Comedy", some false⟩⟩,
           ⟨some "17", some ⟨some "Sports", some true⟩⟩]⟩) "KR").result =
      [("전체", "0"), ("Music", "10"), ("Sports", "17")] :=
  claim_C7 _ "KR" _ [("Music", "10"), ("Sports", "17")] rfl rfl
    (by decide) (by decide)

/-- Claim C10: on a present client and successful well-formed upstream
response, the result is keyed by display title (no two entries share a key);
looking a title up yields the identifier of the last upstream pair with that
title (so duplicate titles collapse to the later identifier); and whenever
some assignable category is titled "전체", the first key keeps position but
its value becomes that category's identifier in place of "0". -/
theorem claim_C10 (upstream : CatReq → Except String CatResponse) (region_code : String)
    (items : List CatItem) (pairs : List (String × String))
    (h : upstream { part := "snippet", regionCode := region_code } =
      Except.ok { items := some items })
    (hc : catEntries items = Except.ok pairs) :
    (((get_video_categories true upstream region_code).result).map Prod.fst).Nodup ∧
    (∀ t, dictGet (get_video_categories true upstream region_code).result t =
      lastVal t (("전체", "0") :: pairs)) ∧
    (∀ w, lastVal "전체" pairs = some w →
      ((get_video_categories true upstream region_code).result).head? =
        some ("전체", w)) := by
  rw [get_video_categories_ok upstream region_code items pairs h hc]
  dsimp only
  refine ⟨nodup_keys_dictOfList _, fun t => dictGet_dictOfList _ t, ?_⟩
  intro w hw
  exact dictOfList_cons_head_eq ("전체", "0") pairs w (by simp [lastVal, hw])

theorem claim_C10_witness :
    ((get_video_categories true
        (fun _ => Except.ok ⟨some
          [⟨some "9", some ⟨some "전체", some true⟩⟩,
           ⟨some "1", some ⟨some "Music", some true⟩⟩,
           ⟨some "2", some ⟨some "Music", some true⟩⟩]⟩) "KR").result).head? =
      some ("전체", "9") :=
  (claim_C10 _ "KR"
    [⟨some "9", some ⟨some "전체", some true⟩⟩,
     ⟨some "1", some ⟨some "Music", some true⟩⟩,
     ⟨some "2", some ⟨some "Music", some true⟩⟩]
    [("전체", "9"), ("Music", "1"), ("Music", "2")] rfl
    rfl).2.2 "9" (by decide)

/-- Claim C5: when exactly one record of the batch fails its render-time field
lookups (e.g. it lacks `statistics`) and every other record renders cleanly,
the loop still renders every slot (no abort), each record `j` lands in column
`j % 3` with its own slot content in order, exactly 1 slot carries a warning —
the failing record's own slot — and the other N-1 are normal cards. -/
theorem claim_C5 (videos : List VideoItem) (k : Nat) (hk : k < videos.length)
    (hfail : slotHasWarning (renderSlot (videos.get ⟨k, hk⟩)) = true)
    (hok : ∀ j (hj : j < videos.length), j ≠ k →
      slotHasWarning (renderSlot (videos.get ⟨j, hj⟩)) = false) :
    (renderVideos videos).length = videos.length ∧
    (∀ j (hj : j < videos.length) (hj2 : j < (renderVideos videos).length),
      (renderVideos videos).get ⟨j, hj2⟩ = (j % 3, renderSlot (videos.get ⟨j, hj⟩))) ∧
    (∀ hk2 : k < (renderVideos videos).length,
      ((renderVideos videos).get ⟨k, hk2⟩).1 = k % 3 ∧
      slotHasWarning ((renderVideos videos).get ⟨k, hk2⟩).2 = true) ∧
    (renderVideos videos).countP (fun s => slotHasWarning s.2) = 1 ∧
    (renderVideos videos).countP (fun s => !slotHasWarning s.2) = videos.length - 1 := by
  obtain ⟨h1, h2⟩ :=
    countP_eq_one_of_unique (fun v => slotHasWarning (renderSlot v)) videos k hk hfail hok
  refine ⟨renderVideos_length videos, renderVideos_get videos, ?_, ?_, ?_⟩
  · intro hk2
    rw [renderVideos_get videos k hk hk2]
    exact ⟨rfl, hfail⟩
  · rw [renderVideos_countP]
    exact h1
  · rw [renderVideos_countP_not]
    exact h2

theorem claim_C5_witness :
    (renderVideos
      [mkFullVideo "a" "u1" "T1" "C1" (some 5),
       ⟨some "b", some ⟨some "T2", some "C2", some ⟨some ⟨some "u2"⟩⟩⟩, none⟩,
       mkFullVideo "c" "u3" "T3" "C3" (some 7)]).countP
        (fun s => slotHasWarning s.2) = 1 ∧
    (renderVideos
      [mkFullVideo "a" "u1" "T1" "C1" (some 5),
       ⟨some "b", some ⟨some "T2", some "C2", some ⟨some ⟨some "u2"⟩⟩⟩, none⟩,
       mkFullVideo "c" "u3" "T3" "C3" (some 7)]).countP
        (fun s => !slotHasWarning s.2) = 2 := by
  have h := claim_C5
    [mkFullVideo "a" "u1" "T1" "C1" (some 5),
     ⟨some "b", some ⟨some "T2", some "C2", some ⟨some ⟨some "u2"⟩⟩⟩, none⟩,
     mkFullVideo "c" "u3" "T3" "C3" (some 7)] 1 (by decide) (by decide) (by decide)
  exact ⟨h.2.2.2.1, h.2.2.2.2⟩

/-- Claim C9: for a fully-populated record the view count renders with
thousands separators (`1234567` displays as `1,234,567`); a record whose
`statistics` lacks `viewCount` renders `0` in a normal card instead of
failing. -/
theorem claim_C9 (video_id u t ch : String) (n : Nat) :
    renderSlot (mkFullVideo video_id u t ch (some n)) =
      [UiWidget.image u,
       UiWidget.subheader ("[" ++ t ++ "](" ++ watchUrl video_id ++ ")"),
       UiWidget.write ("**채널:** " ++ ch),
       UiWidget.write ("**조회수:** " ++ formatThousands n ++ "회")] ∧
    renderSlot (mkFullVideo video_id u t ch none) =
      [UiWidget.image u,
       UiWidget.subheader ("[" ++ t ++ "](" ++ watchUrl video_id ++ ")"),
       UiWidget.write ("**채널:** " ++ ch),
       UiWidget.write ("**조회수:** 0회")] ∧
    slotHasWarning (renderSlot (mkFullVideo video_id u t ch none)) = false ∧
    formatThousands 1234567 = "1,234,567" := by
  refine ⟨rfl, ?_, rfl, by decide⟩
  show renderSlot (mkFullVideo video_id u t ch none) = _
  have h0 : formatThousands 0 = "0" := by decide
  simp [renderSlot, mkFullVideo, h0]

/-- Claim C2 (spec-modelled cache): after a call at `t1` that issued the
upstream query and stored the result, an identical call (same key) strictly
within the 1-hour window returns the cached value without running the
computation again, for both `get_popular_videos` keys `(region, category,
limit)` and `get_video_categories` keys `region`; once the window has
elapsed, an identical call runs the upstream computation again. -/
theorem claim_C2 (client : Bool)
    (upstream : ReqParams → Except UpError PopResponse)
    (cat_upstream : CatReq → Except String CatResponse)
    (region_code video_category_id : String) (max_results : Nat)
    (cache0 : List ((String × String × Nat) ×
      FetchOut ReqParams (Option (List VideoItem)) × Nat))
    (cache0' : List (String × FetchOut CatReq (List (String × String)) × Nat))
    (t1 t2 t3 : Nat)
    (hm : (cachedCall cache0 t1 (region_code, video_category_id, max_results)
      (fun _ => get_popular_videos client upstream region_code video_category_id
        max_results)).calledUpstream = true)
    (hm' : (cachedCall cache0' t1 region_code
      (fun _ => get_video_categories client cat_upstream region_code)).calledUpstream =
        true)
    (h2 : t2 < t1 + cacheTTL) (h3 : t1 + cacheTTL ≤ t3) :
    cachedCall (cachedCall cache0 t1 (region_code, video_category_id, max_results)
        (fun _ => get_popular_videos client upstream region_code video_category_id
          max_results)).cache
      t2 (region_code, video_category_id, max_results)
      (fun _ => get_popular_videos client upstream region_code video_category_id
        max_results) =
      ⟨(cachedCall cache0 t1 (region_code, video_category_id, max_results)
          (fun _ => get_popular_videos client upstream region_code video_category_id
            max_results)).value,
       (cachedCall cache0 t1 (region_code, video_category_id, max_results)
          (fun _ => get_popular_videos client upstream region_code video_category_id
            max_results)).cache, false⟩ ∧
    cachedCall (cachedCall cache0' t1 region_code
        (fun _ => get_video_categories client cat_upstream region_code)).cache
      t2 region_code (fun _ => get_video_categories client cat_upstream region_code) =
      ⟨(cachedCall cache0' t1 region_code
          (fun _ => get_video_categories client cat_upstream region_code)).value,
       (cachedCall cache0' t1 region_code
          (fun _ => get_video_categories client cat_upstream region_code)).cache,
       false⟩ ∧
    (cachedCall (cachedCall cache0 t1 (region_code, video_category_id, max_results)
        (fun _ => get_popular_videos client upstream region_code video_category_id
          max_results)).cache
      t3 (region_code, video_category_id, max_results)
      (fun _ => get_popular_videos client upstream region_code video_category_id
        max_results)).calledUpstream = true ∧
    (cachedCall (cachedCall cache0' t1 region_code
        (fun _ => get_video_categories client cat_upstream region_code)).cache
      t3 region_code
      (fun _ => get_video_categories client cat_upstream region_code)).calledUpstream =
      true :=
  ⟨cachedCall_hit_within cache0 t1 t2 _ _ _ hm h2,
   cachedCall_hit_within cache0' t1 t2 _ _ _ hm' h2,
   (cachedCall_expired cache0 t1 t3 _ _ _ hm h3).1,
   (cachedCall_expired cache0' t1 t3 _ _ _ hm' h3).1⟩

theorem claim_C2_witness :
    (cachedCall (cachedCall [] 0 (("KR", "0", 30) : String × String × Nat)
        (fun _ => get_popular_videos true (fun _ => Except.ok ⟨some []⟩) "KR" "0"
          30)).cache
      1800 (("KR", "0", 30) : String × String × Nat)
      (fun _ => get_popular_videos true (fun _ => Except.ok ⟨some []⟩) "KR" "0"
        30)).calledUpstream = false ∧
    (cachedCall (cachedCall [] 0 (("KR", "0", 30) : String × String × Nat)
        (fun _ => get_popular_videos true (fun _ => Except.ok ⟨some []⟩) "KR" "0"
          30)).cache
      3600 (("KR", "0", 30) : String × String × Nat)
      (fun _ => get_popular_videos true (fun _ => Except.ok ⟨some []⟩) "KR" "0"
        30)).calledUpstream = true := by
  have h := claim_C2 true (fun _ => Except.ok ⟨some []⟩) (fun _ => Except.error "e")
    "KR" "0" 30 [] [] 0 1800 3600 rfl rfl (by decide) (by decide)
  constructor
  · rw [h.1]
  · exact h.2.2.1

end StreamlitApp
